import Mathlib

/-!
Shallow embedding of the `smart_home_assistant` repository: the agent
pipeline (`agent.py`), the Modbus command encoding (`modbus_utils.py`),
the device controller (`device_controller.py`), the data connectors
(`data_connectors.py`), the tool schema (`tools_definition.py`) and the
HTTP response formatter (`main_api.py`), together with theorems checking
the repository's natural-language specification against this embedding.

Modelling conventions:
- Python values (the results of `json.loads` and the values produced by
  the capability functions) are modelled by the inductive type `PyVal`;
  machine integers are `Int`/`Nat` (JSON numbers are modelled on the
  integer fragment, which covers every value the source manipulates).
- Fallible Python code is modelled with `Except PyErr`; a `.error`
  value models an uncaught Python exception propagating to the caller.
- The completion gateway, the serial port, the system clock and the
  external HTTP services are I/O boundaries; they are modelled as
  explicit oracle parameters (a response script for the gateway, plain
  functions/values for the rest).
-/

/-- Python values: the result type of `json.loads` and of the capability
functions (`None`, `bool`, `int`, `str`, `list`, `dict`). -/
inductive PyVal where
  | pnone : PyVal
  | pbool : Bool → PyVal
  | pint : Int → PyVal
  | pstr : String → PyVal
  | plist : List PyVal → PyVal
  | pdict : List (String × PyVal) → PyVal
deriving Inhabited

/-- Python exceptions that the embedded code can raise. -/
inductive PyErr where
  | jsonDecodeError : String → PyErr
  | keyError : String → PyErr
  | indexError : String → PyErr
  | typeError : String → PyErr
  | attributeError : String → PyErr
deriving Inhabited, DecidableEq

/-- Python truthiness (`bool(x)`) on `PyVal`. -/
def pyTruthy : PyVal → Bool
  | .pnone => false
  | .pbool b => b
  | .pint n => n ≠ 0
  | .pstr s => s ≠ ""
  | .plist xs => ¬ xs.isEmpty
  | .pdict kvs => ¬ kvs.isEmpty

mutual

/-- Python `repr` on `PyVal`, used when a container is interpolated into
an f-string (`str(list)`/`str(dict)` fall back to `repr` of elements). -/
def pyRepr : PyVal → String
  | .pnone => "None"
  | .pbool true => "True"
  | .pbool false => "False"
  | .pint n => toString n
  | .pstr s => "\x27" ++ s ++ "\x27"
  | .plist xs => "[" ++ pyReprList xs ++ "]"
  | .pdict kvs => "\x7b" ++ pyReprDict kvs ++ "\x7d"

/-- Comma-separated `repr` of list elements. -/
def pyReprList : List PyVal → String
  | [] => ""
  | [x] => pyRepr x
  | x :: rest => pyRepr x ++ ", " ++ pyReprList rest

/-- Comma-separated `repr` of dict items. -/
def pyReprDict : List (String × PyVal) → String
  | [] => ""
  | [(k, v)] => "\x27" ++ k ++ "\x27: " ++ pyRepr v
  | (k, v) :: rest => "\x27" ++ k ++ "\x27: " ++ pyRepr v ++ ", " ++ pyReprDict rest

end

/-- Python `str(x)`, as used by f-string interpolation. -/
def pyToDisplayStr : PyVal → String
  | .pnone => "None"
  | .pbool true => "True"
  | .pbool false => "False"
  | .pint n => toString n
  | .pstr s => s
  | .plist xs => pyRepr (.plist xs)
  | .pdict kvs => pyRepr (.pdict kvs)

/-- JSON string escaping used by `json.dumps` (the characters the source
actually produces: quote, backslash and the common control characters). -/
def jsonEscapeChar (c : Char) : String :=
  if c = '"' then "\\\""
  else if c = '\\' then "\\\\"
  else if c = '\n' then "\\n"
  else if c = '\t' then "\\t"
  else if c = '\r' then "\\r"
  else String.mk [c]

/-- Escape a whole string for `json.dumps`. -/
def jsonEscape (s : String) : String :=
  String.join (s.data.map jsonEscapeChar)

mutual

/-- Model of Python `json.dumps` on `PyVal`. -/
def pyJsonDumps : PyVal → String
  | .pnone => "null"
  | .pbool true => "true"
  | .pbool false => "false"
  | .pint n => toString n
  | .pstr s => "\"" ++ jsonEscape s ++ "\""
  | .plist xs => "[" ++ pyJsonDumpsList xs ++ "]"
  | .pdict kvs => "\x7b" ++ pyJsonDumpsDict kvs ++ "\x7d"

/-- Comma-separated `json.dumps` of list elements. -/
def pyJsonDumpsList : List PyVal → String
  | [] => ""
  | [x] => pyJsonDumps x
  | x :: rest => pyJsonDumps x ++ ", " ++ pyJsonDumpsList rest

/-- Comma-separated `json.dumps` of dict items. -/
def pyJsonDumpsDict : List (String × PyVal) → String
  | [] => ""
  | [(k, v)] => "\"" ++ jsonEscape k ++ "\": " ++ pyJsonDumps v
  | (k, v) :: rest => "\"" ++ jsonEscape k ++ "\": " ++ pyJsonDumps v ++ ", " ++ pyJsonDumpsDict rest

end

/-- Insert a key/value pair into an association list the way a Python
dict is built from parsed JSON object members: a repeated key keeps its
original position but takes the later value. -/
def insertAssoc (kvs : List (String × PyVal)) (k : String) (v : PyVal) : List (String × PyVal) :=
  if kvs.any (fun kv => kv.1 = k) then
    kvs.map (fun kv => if kv.1 = k then (k, v) else kv)
  else
    kvs ++ [(k, v)]

/-- JSON whitespace as accepted between tokens by `json.loads`. -/
def jsonIsWs (c : Char) : Bool :=
  c = ' ' || c = '\t' || c = '\n' || c = '\r'

/-- Drop leading JSON whitespace. -/
def skipWs (cs : List Char) : List Char :=
  cs.dropWhile jsonIsWs

/-- Hexadecimal digit value, for `\uXXXX` escapes. -/
def hexVal (c : Char) : Option Nat :=
  if '0' ≤ c ∧ c ≤ '9' then some (c.toNat - '0'.toNat)
  else if 'a' ≤ c ∧ c ≤ 'f' then some (c.toNat - 'a'.toNat + 10)
  else if 'A' ≤ c ∧ c ≤ 'F' then some (c.toNat - 'A'.toNat + 10)
  else none

/-- Parse the body of a JSON string (the opening quote already
consumed), handling the escape sequences `json.loads` accepts. -/
def parseStringBody : List Char → List Char → Option (String × List Char)
  | [], _ => none
  | c :: rest, acc =>
    if c = '"' then some (String.mk acc.reverse, rest)
    else if c = '\\' then
      match rest with
      | [] => none
      | e :: rest2 =>
        if e = '"' then parseStringBody rest2 ('"' :: acc)
        else if e = '\\' then parseStringBody rest2 ('\\' :: acc)
        else if e = '/' then parseStringBody rest2 ('/' :: acc)
        else if e = 'n' then parseStringBody rest2 ('\n' :: acc)
        else if e = 't' then parseStringBody rest2 ('\t' :: acc)
        else if e = 'r' then parseStringBody rest2 ('\r' :: acc)
        else if e = 'b' then parseStringBody rest2 ('\x08' :: acc)
        else if e = 'f' then parseStringBody rest2 ('\x0c' :: acc)
        else if e = 'u' then
          match rest2 with
          | a :: b :: c2 :: d :: rest3 =>
            match hexVal a, hexVal b, hexVal c2, hexVal d with
            | some ha, some hb, some hc, some hd =>
              parseStringBody rest3 (Char.ofNat (((ha * 16 + hb) * 16 + hc) * 16 + hd) :: acc)
            | _, _, _, _ => none
          | _ => none
        else none
    else parseStringBody rest (c :: acc)

/-- Split a leading run of decimal digits off a character list. -/
def takeDigits : List Char → List Char × List Char
  | [] => ([], [])
  | c :: rest =>
    if c.isDigit then
      let (ds, r) := takeDigits rest
      (c :: ds, r)
    else ([], c :: rest)

/-- Numeric value of a digit list. -/
def digitsToNat : List Char → Nat
  | [] => 0
  | ds => ds.foldl (fun acc c => acc * 10 + (c.toNat - '0'.toNat)) 0

mutual

/-- Recursive-descent model of `json.loads` on one JSON value; `fuel`
bounds the recursion depth. JSON numbers are modelled on the integer
fragment (a fraction or exponent part makes the parse fail in the model;
no claim exercises float payloads). -/
def parseValue : Nat → List Char → Option (PyVal × List Char)
  | 0, _ => none
  | fuel + 1, cs =>
    match skipWs cs with
    | [] => none
    | c :: rest =>
      if c = '"' then
        match parseStringBody rest [] with
        | some (s, r) => some (.pstr s, r)
        | none => none
      else if c = '[' then
        match skipWs rest with
        | ']' :: r2 => some (.plist [], r2)
        | r2 => match parseArrItems fuel r2 with
          | some (xs, r3) => some (.plist xs, r3)
          | none => none
      else if c = '\x7b' then
        match skipWs rest with
        | '\x7d' :: r2 => some (.pdict [], r2)
        | r2 => match parseObjItems fuel r2 with
          | some (kvs, r3) => some (.pdict kvs, r3)
          | none => none
      else if (c :: rest).take 4 = ['t','r','u','e'] then
        some (.pbool true, (c :: rest).drop 4)
      else if (c :: rest).take 5 = ['f','a','l','s','e'] then
        some (.pbool false, (c :: rest).drop 5)
      else if (c :: rest).take 4 = ['n','u','l','l'] then
        some (.pnone, (c :: rest).drop 4)
      else
        let (neg, cs2) := if c = '-' then (true, rest) else (false, c :: rest)
        let (ds, r) := takeDigits cs2
        if ds.isEmpty then none
        else if ds.length > 1 ∧ ds.headI = '0' then none
        else match r with
          | '.' :: _ => none
          | 'e' :: _ => none
          | 'E' :: _ => none
          | _ =>
            let n : Int := digitsToNat ds
            some (.pint (if neg then -n else n), r)

/-- Parse one or more comma-separated array items followed by `]`. -/
def parseArrItems : Nat → List Char → Option (List PyVal × List Char)
  | 0, _ => none
  | fuel + 1, cs =>
    match parseValue fuel cs with
    | none => none
    | some (v, r) =>
      match skipWs r with
      | ']' :: r2 => some ([v], r2)
      | ',' :: r2 =>
        match parseArrItems fuel r2 with
        | some (vs, r3) => some (v :: vs, r3)
        | none => none
      | _ => none

/-- Parse one or more comma-separated object members followed by a
closing brace. -/
def parseObjItems : Nat → List Char → Option (List (String × PyVal) × List Char)
  | 0, _ => none
  | fuel + 1, cs =>
    match skipWs cs with
    | '"' :: rest =>
      match parseStringBody rest [] with
      | none => none
      | some (k, r) =>
        match skipWs r with
        | ':' :: r2 =>
          match parseValue fuel r2 with
          | none => none
          | some (v, r3) =>
            match skipWs r3 with
            | '\x7d' :: r4 => some ([(k, v)], r4)
            | ',' :: r4 =>
              match parseObjItems fuel r4 with
              | some (kvs, r5) => some ((k, v) :: kvs, r5)
              | none => none
            | _ => none
        | _ => none
    | _ => none

end

mutual

/-- Rebuild parsed object member lists into Python dicts (later
duplicate keys overwrite earlier ones, keeping the original position),
recursively through the value. -/
def dedupJson : PyVal → PyVal
  | .pdict kvs => .pdict ((dedupJsonKvs kvs).foldl (fun acc kv => insertAssoc acc kv.1 kv.2) [])
  | .plist xs => .plist (dedupJsonList xs)
  | .pnone => .pnone
  | .pbool b => .pbool b
  | .pint n => .pint n
  | .pstr s => .pstr s

/-- Apply `dedupJson` across a list of elements. -/
def dedupJsonList : List PyVal → List PyVal
  | [] => []
  | x :: rest => dedupJson x :: dedupJsonList rest

/-- Apply `dedupJson` across object member values. -/
def dedupJsonKvs : List (String × PyVal) → List (String × PyVal)
  | [] => []
  | (k, v) :: rest => (k, dedupJson v) :: dedupJsonKvs rest

end

/-- Model of `json.loads`: parse one JSON value and require that only
whitespace follows it. -/
def parseJson (s : String) : Option PyVal :=
  match parseValue (2 * s.length + 4) s.data with
  | some (v, rest) => if (skipWs rest).isEmpty then some (dedupJson v) else none
  | none => none

/-- CRC step for one byte of `calculate_crc` in `modbus_utils.py`: xor
the byte into the running CRC, then run eight shift/xor rounds with the
Modbus polynomial `0xA001`. -/
def crcByteStep (crc byte : Nat) : Nat :=
  (List.range 8).foldl
    (fun c _ => if c &&& 1 = 1 then (c >>> 1) ^^^ 0xA001 else c >>> 1)
    (crc ^^^ byte)

/-- CRC-16/Modbus register value computed by `calculate_crc`, before it
is serialised: initial value `0xFFFF`, polynomial `0xA001`. -/
def crc16 (data : List Nat) : Nat :=
  data.foldl crcByteStep 0xFFFF

/-- Model of `calculate_crc` in `modbus_utils.py`: the CRC register
serialised by `crc.to_bytes(2, byteorder=\x27little\x27)`. -/
def calculate_crc (data : List Nat) : List Nat :=
  [crc16 data &&& 0xFF, (crc16 data >>> 8) &&& 0xFF]

/-- Model of `generate_write_command` in `modbus_utils.py`: a Modbus
Write Single Register frame (function code 6) followed by the CRC.
Python's `bytearray.append` would raise for a value above 255; the
claims' bounds keep every appended value in range, which the theorems
re-check explicitly. -/
def generate_write_command (slave_id register value : Nat) : List Nat :=
  let command := [slave_id, 6, register >>> 8, register &&& 0xFF, value >>> 8, value &&& 0xFF]
  command ++ calculate_crc command

/-- ON value written to a device register, from `device_controller.py`. -/
def ON_VALUE : Nat := 0x02

/-- OFF value written to a device register, from `device_controller.py`. -/
def OFF_VALUE : Nat := 0x01

/-- Entry of `DEVICE_MAP` in `device_controller.py`. -/
structure DeviceInfo where
  slave_id : Nat
  register : Nat
  name : String
deriving DecidableEq

/-- The device registry `DEVICE_MAP` from `device_controller.py`. -/
def DEVICE_MAP : List (String × DeviceInfo) :=
  [("kitchen_lamp", ⟨0x36, 1, "Kitchen Lamp"⟩),
   ("bathroom_lamp", ⟨0x36, 2, "Bathroom Lamp"⟩),
   ("room1_lamp", ⟨0x36, 3, "Room 1 Lamp"⟩),
   ("room2_lamp", ⟨0x36, 4, "Room 2 Lamp"⟩),
   ("room1_ac", ⟨0x37, 1, "Room 1 AC Unit"⟩),
   ("kitchen_ac", ⟨0x37, 2, "Kitchen AC Unit"⟩),
   ("living_room_tv", ⟨0x37, 3, "Living Room TV"⟩)]

/-- Model of `_control_device` in `device_controller.py`. The serial
transmission `send_modbus_command` is an external boundary modelled by
the oracle `send` (its Python implementation catches every exception and
returns a boolean). -/
def _control_device (send : List Nat → Bool) (device_id : String) (value : Nat)
    (action_name : String) : PyVal :=
  match DEVICE_MAP.lookup device_id with
  | none =>
    .pdict [("success", .pbool false),
            ("error", .pstr ("Device \x27" ++ device_id ++ "\x27 not found."))]
  | some info =>
    let command := generate_write_command info.slave_id info.register value
    if send command then
      .pdict [("success", .pbool true), ("deviceName", .pstr info.name),
              ("action", .pstr action_name)]
    else
      .pdict [("success", .pbool false),
              ("error", .pstr ("Failed to send command to " ++ info.name ++ "."))]

/-- Model of `turn_on_device` in `device_controller.py`. -/
def turn_on_device (send : List Nat → Bool) (device_id : String) : PyVal :=
  _control_device send device_id ON_VALUE "turned on"

/-- Model of `turn_off_device` in `device_controller.py`. -/
def turn_off_device (send : List Nat → Bool) (device_id : String) : PyVal :=
  _control_device send device_id OFF_VALUE "turned off"

/-- Outcome of one external HTTP fetch (`requests.get` followed by
`raise_for_status` and `response.json()`): either some request-layer
failure (connection error, non-success status, undecodable body — all
surfacing as a `requests` exception that the source catches), or a
decoded JSON body. -/
inductive HttpOutcome where
  | requestError : String → HttpOutcome
  | okResp : PyVal → HttpOutcome

/-- Clock oracle for `datetime.datetime.now()`. -/
structure Clock where
  hour : Nat
  minute : Nat
  second : Nat

/-- Date oracle for `datetime.date.today()`. -/
structure DateOracle where
  year : Nat
  month : Nat
  day : Nat

/-- Zero-padded two-digit rendering, as `strftime` does for in-range
field values. -/
def pad2 (n : Nat) : String :=
  if n < 10 then "0" ++ toString n else toString n

/-- Zero-padded four-digit rendering for `%Y`. -/
def pad4 (n : Nat) : String :=
  if n < 10 then "000" ++ toString n
  else if n < 100 then "00" ++ toString n
  else if n < 1000 then "0" ++ toString n
  else toString n

/-- Python truthiness of the configured API key (`if not KEY` treats an
unset variable and an empty string alike). -/
def apiKeyOk : Option String → Bool
  | none => false
  | some s => s ≠ ""

/-- Subscript access `v[key]` on a decoded JSON value: a missing dict
key raises `KeyError`; subscripting a non-container (or a container
keyed by integers) with a string raises `TypeError`. -/
def pySubscript (v : PyVal) (key : String) : Except PyErr PyVal :=
  match v with
  | .pdict kvs =>
    match kvs.lookup key with
    | some x => .ok x
    | none => .error (.keyError key)
  | _ => .error (.typeError "object is not subscriptable with a string key")

/-- Subscript access `v[i]` with an integer index: out-of-range list
access raises `IndexError`; a string yields its `i`-th character; other
shapes raise `TypeError`. -/
def pySubscriptNat (v : PyVal) (i : Nat) : Except PyErr PyVal :=
  match v with
  | .plist xs =>
    match xs.get? i with
    | some x => .ok x
    | none => .error (.indexError "list index out of range")
  | .pstr s =>
    match s.data.get? i with
    | some c => .ok (.pstr (String.mk [c]))
    | none => .error (.indexError "string index out of range")
  | _ => .error (.typeError "object is not subscriptable")

/-- Field extraction done inside the `try` block of
`get_current_weather`, in source order: `data["weather"][0]["description"]`,
then `temp`, `feels_like`, `humidity` from `data["main"]`, then
`data["wind"]["speed"]`. -/
def weatherFields (body : PyVal) : Except PyErr (PyVal × PyVal × PyVal × PyVal × PyVal) := do
  let w ← pySubscript body "weather"
  let w0 ← pySubscriptNat w 0
  let desc ← pySubscript w0 "description"
  let mn ← pySubscript body "main"
  let temp ← pySubscript mn "temp"
  let feels ← pySubscript mn "feels_like"
  let hum ← pySubscript mn "humidity"
  let wind ← pySubscript body "wind"
  let speed ← pySubscript wind "speed"
  pure (desc, temp, feels, hum, speed)

/-- Model of `data.get(key)` / `data.get(key, default)`: only valid on a
dict; any other receiver raises `AttributeError`. -/
def pyDictGet (v : PyVal) (key : String) (dflt : PyVal) : Except PyErr PyVal :=
  match v with
  | .pdict kvs =>
    match kvs.lookup key with
    | some x => .ok x
    | none => .ok dflt
  | _ => .error (.attributeError "object has no attribute get")

/-- Truthiness test `data.get("cod") != 200` is false exactly when the
decoded `cod` field is the number 200 (a Python bool is an int, but
`True`/`False` are 1/0, never 200). -/
def codIs200 : PyVal → Bool
  | .pint n => n = 200
  | _ => false

/-- Model of `get_current_weather` in `data_connectors.py`. The API key
and the network are oracle parameters; the `except` clauses catch only
`requests` failures and `KeyError`, so an `IndexError` or `TypeError`
raised by the field extraction propagates, exactly as in the source. -/
def get_current_weather (apiKey : Option String) (net : HttpOutcome)
    (city unit : PyVal) : Except PyErr PyVal :=
  let _ := unit
  if ¬ apiKeyOk apiKey then .ok (.pstr "Error: Weather API Key not set.")
  else
    match net with
    | .requestError e => .ok (.pstr ("Error connecting to Weather API: " ++ e))
    | .okResp body =>
      match pyDictGet body "cod" .pnone with
      | .error e => .error e
      | .ok cod =>
        if ¬ codIs200 cod then
          match pyDictGet body "message" (.pstr "Unknown error") with
          | .error e => .error e
          | .ok msg => .ok (.pstr ("Error getting weather data: " ++ pyToDisplayStr msg))
        else
          match weatherFields body with
          | .ok (desc, temp, feels, hum, speed) =>
            .ok (.pstr ("Current weather in " ++ pyToDisplayStr city ++ ": " ++
              pyToDisplayStr desc ++ ". " ++
              "Temperature: " ++ pyToDisplayStr temp ++ "°C (feels like: " ++
              pyToDisplayStr feels ++ "°C). " ++
              "Humidity: " ++ pyToDisplayStr hum ++ "%. Wind speed: " ++
              pyToDisplayStr speed ++ " m/s."))
          | .error (.keyError _) =>
            .ok (.pstr "Error: Weather information not found for the specified city or invalid response format.")
          | .error e => .error e

/-- Model of `get_current_time` in `data_connectors.py`: formats the
clock oracle with `%H:%M:%S`. -/
def get_current_time (clock : Clock) : PyVal :=
  .pstr ("Current time: " ++ pad2 clock.hour ++ ":" ++ pad2 clock.minute ++ ":" ++
    pad2 clock.second ++ ".")

/-- Model of `get_current_date` in `data_connectors.py`: formats the
date oracle with `%Y/%m/%d`. -/
def get_current_date (today : DateOracle) : PyVal :=
  .pstr ("Today\x27s date: " ++ pad4 today.year ++ "/" ++ pad2 today.month ++ "/" ++
    pad2 today.day ++ ".")

/-- Headline extraction from the articles list in `get_news_headlines`
(`[f"- \x7barticle[\x27title\x27]\x7d" for article in articles]`): a dict without
a `title` raises `KeyError` (caught by the source), any non-dict element
raises `TypeError` (not caught). -/
def newsTitles : List PyVal → Except PyErr (List String)
  | [] => .ok []
  | a :: rest =>
    match a with
    | .pdict kvs =>
      match kvs.lookup "title" with
      | none => .error (.keyError "title")
      | some t => do
        let ts ← newsTitles rest
        pure (("- " ++ pyToDisplayStr t) :: ts)
    | _ => .error (.typeError "element is not subscriptable with a string key")

/-- Model of `get_news_headlines` in `data_connectors.py`. Iterating a
truthy non-list `articles` value ends in a `TypeError` that the source
does not catch; a missing `title` key is caught as an invalid-format
message. The empty-articles message interpolates `category` and
`country` through an f-string (so any value renders), but the success
return builds its string with plain `+` concatenation of `country`, so
a non-string country raises an uncaught `TypeError` there. -/
def get_news_headlines (apiKey : Option String) (net : HttpOutcome)
    (category country : PyVal) : Except PyErr PyVal :=
  if ¬ apiKeyOk apiKey then .ok (.pstr "Error: News API Key not set.")
  else
    match net with
    | .requestError e => .ok (.pstr ("Error connecting to News API: " ++ e))
    | .okResp body =>
      match pyDictGet body "articles" (.plist []) with
      | .error e => .error e
      | .ok articles =>
        if ¬ pyTruthy articles then
          .ok (.pstr ("No news found in category " ++ pyToDisplayStr category ++
            " for country " ++ pyToDisplayStr country ++ "."))
        else
          match articles with
          | .plist xs =>
            match newsTitles xs with
            | .ok headlines =>
              match country with
              | .pstr c =>
                .ok (.pstr ("\n" ++ "Latest news for " ++ c ++
                  " is as follows:" ++ "\n" ++ String.intercalate "\n" headlines))
              | _ => .error (.typeError "can only concatenate str to str")
            | .error (.keyError _) => .ok (.pstr "Error: Invalid News API response format.")
            | .error e => .error e
          | _ => .error (.typeError "object is not iterable as articles")

/-- Name prefixing done by `pydantic_to_json_schema` in
`tools_definition.py`. -/
def pydanticPrefixedName (function_name : String) : String :=
  "call_" ++ function_name

/-- Model of `get_tools_schema` in `tools_definition.py`, reduced to the
observable the agent claims depend on: the list of declared capability
names (the parameter schemas attached to each declaration are consumed
only by the external completion service). -/
def get_tools_schema : List String :=
  [pydanticPrefixedName "turn_on_device",
   pydanticPrefixedName "turn_off_device",
   pydanticPrefixedName "get_current_weather",
   pydanticPrefixedName "get_current_time",
   pydanticPrefixedName "get_current_date",
   pydanticPrefixedName "get_news_headlines"]

/-- Test whether a character list starts with the given needle. -/
def listStartsWith : List Char → List Char → Bool
  | _, [] => true
  | [], _ :: _ => false
  | a :: as, b :: bs => a = b && listStartsWith as bs

/-- Substring search on character lists (needle first, haystack second),
modelling Python's `in` operator on strings. -/
def charsHasSub (needle : List Char) : List Char → Bool
  | [] => listStartsWith [] needle
  | c :: rest => listStartsWith (c :: rest) needle || charsHasSub needle rest

/-- Substring containment on strings (`needle in hay` in Python). -/
def strHasSub (hay needle : String) : Bool :=
  charsHasSub needle.data hay.data

/-- Whitespace class of the regular-expression `\s` (and the core of
`str.strip()`), restricted to ASCII. -/
def pyRegexSpace (c : Char) : Bool :=
  c = ' ' || c = '\t' || c = '\n' || c = '\r' || c = '\x0c' || c = '\x0b'

/-- Strip leading and trailing whitespace from a character list. -/
def trimPySpace (l : List Char) : List Char :=
  ((l.dropWhile pyRegexSpace).reverse.dropWhile pyRegexSpace).reverse

/-- Model of Python `str.strip()`. -/
def pyStrip (s : String) : String :=
  String.mk (trimPySpace s.data)

/-- Model of Python `str.lower()` (ASCII fragment). -/
def pyLower (s : String) : String :=
  String.mk (s.data.map Char.toLower)

/-- Opening token of the fenced block recognised by the regular
expression in `parse_tool_calls_from_content`. -/
def fenceOpenChars : List Char := ['`', '`', '`', 'j', 's', 'o', 'n']

/-- Closing fence token. -/
def fenceChars : List Char := ['`', '`', '`']

/-- Characters strictly before the first closing fence, or `none` when
no closing fence exists. -/
def takeUntilFence : List Char → Option (List Char)
  | [] => none
  | c :: rest =>
    if listStartsWith (c :: rest) fenceChars then some []
    else
      match takeUntilFence rest with
      | some mid => some (c :: mid)
      | none => none

/-- Model of the search for ```` ```json\s*(.*?)\s*``` ```` (DOTALL) in
`parse_tool_calls_from_content`: the leftmost position opening a tagged
fence that also has a later closing fence wins, and the lazily-matched
group is the enclosed text with surrounding whitespace stripped. -/
def extractFencedJson : List Char → Option (List Char)
  | [] => none
  | c :: rest =>
    if listStartsWith (c :: rest) fenceOpenChars then
      match takeUntilFence ((c :: rest).drop 7) with
      | some mid => some (trimPySpace mid)
      | none => extractFencedJson rest
    else extractFencedJson rest

/-- Model of `parse_tool_calls_from_content` in `agent.py`: find a
fenced JSON block, decode it, return a decoded list as the call list,
wrap a decoded single object into a one-element list, and yield no calls
(`None`) for a missing block, a malformed block, or a non-container
decode. -/
def parse_tool_calls_from_content (content : String) : Option (List PyVal) :=
  match extractFencedJson content.data with
  | none => none
  | some block =>
    match parseJson (String.mk block) with
    | some (.plist xs) => some xs
    | some (.pdict kvs) => some [.pdict kvs]
    | some _ => none
    | none => none

/-- One structured tool call carried by a completion reply
(`tool_call["id"]`, `tool_call["function"]["name"]`,
`tool_call["function"]["arguments"]`; the nested `function` mapping is
flattened into the structure). -/
structure ToolCall where
  id : String
  name : String
  arguments : String

/-- One choice message of a completion reply: free-text content (JSON
`null` and a missing key are collapsed into `none`) and the optional
native structured-call list. -/
structure RespMessage where
  content : Option String
  tool_calls : Option (List ToolCall)

/-- A completion reply as consumed by the agent (`response["choices"]`). -/
structure CompletionResponse where
  choices : List RespMessage

/-- Conversation message sent to the completion gateway. -/
inductive Msg where
  | sysMsg : String → Msg
  | userMsg : String → Msg
  | assistantMsg : RespMessage → Msg
  | toolMsg : String → String → String → Msg

/-- One request to the completion gateway: ordered messages, the
optional capability declarations (modelled by the declared tool-name
list) and the optional sampling temperature. -/
structure LlmRequest where
  messages : List Msg
  tools : Option (List String)
  temperature : Option Nat

/-- Oracles for every external boundary a single agent run touches. The
completion gateway itself is modelled separately as a response script. -/
structure Env where
  send : List Nat → Bool
  clock : Clock
  today : DateOracle
  weatherKey : Option String
  newsKey : Option String
  weatherNet : HttpOutcome
  newsNet : HttpOutcome

/-- Identifier of a registered capability. -/
inductive CapId where
  | turnOnCap | turnOffCap | weatherCap | timeCap | dateCap | newsCap
deriving DecidableEq

/-- The capability table `AVAILABLE_FUNCTIONS` from `agent.py`. -/
def AVAILABLE_FUNCTIONS : List (String × CapId) :=
  [("call_turn_on_device", .turnOnCap),
   ("call_turn_off_device", .turnOffCap),
   ("call_get_current_weather", .weatherCap),
   ("call_get_current_time", .timeCap),
   ("call_get_current_date", .dateCap),
   ("call_get_news_headlines", .newsCap)]

/-- Keyword binding for `turn_on_device(device_id)` /
`turn_off_device(device_id)`: exactly the key `device_id` must be
present, otherwise the call raises `TypeError`. -/
def bindDeviceArg (kvs : List (String × PyVal)) : Except PyErr PyVal :=
  match kvs with
  | [(k, v)] =>
    if k = "device_id" then .ok v
    else .error (.typeError "got an unexpected keyword argument")
  | [] => .error (.typeError "missing a required argument: device_id")
  | _ => .error (.typeError "got an unexpected keyword argument")

/-- Invocation of a device-control capability with keyword arguments. A
non-string hashable `device_id` falls into the same not-found branch as
the source's `device_id not in DEVICE_MAP` test; an unhashable value
raises `TypeError` inside that test. -/
def deviceCapCall (send : List Nat → Bool) (value : Nat) (action_name : String)
    (kvs : List (String × PyVal)) : Except PyErr PyVal := do
  let v ← bindDeviceArg kvs
  match v with
  | .pstr s => .ok (_control_device send s value action_name)
  | .plist _ => .error (.typeError "unhashable type: list")
  | .pdict _ => .error (.typeError "unhashable type: dict")
  | w => .ok (.pdict [("success", .pbool false),
      ("error", .pstr ("Device \x27" ++ pyToDisplayStr w ++ "\x27 not found."))])

/-- Check that every supplied keyword is accepted by the callee. -/
def kwargsSubset (kvs : List (String × PyVal)) (allowed : List String) : Bool :=
  kvs.all (fun kv => allowed.contains kv.1)

/-- Dispatch `function_to_call(**function_args)` for a registered
capability, modelling Python keyword binding (wrong keywords raise
`TypeError`) and each capability's default arguments. -/
def callCapability (env : Env) : CapId → List (String × PyVal) → Except PyErr PyVal
  | .turnOnCap, kvs => deviceCapCall env.send ON_VALUE "turned on" kvs
  | .turnOffCap, kvs => deviceCapCall env.send OFF_VALUE "turned off" kvs
  | .weatherCap, kvs =>
    if kwargsSubset kvs ["city", "unit"] then
      get_current_weather env.weatherKey env.weatherNet
        ((kvs.lookup ("city")).getD (.pstr "Tehran"))
        ((kvs.lookup ("unit")).getD (.pstr "metric"))
    else .error (.typeError "got an unexpected keyword argument")
  | .timeCap, kvs =>
    if kvs.isEmpty then .ok (get_current_time env.clock)
    else .error (.typeError "get_current_time() takes no keyword arguments")
  | .dateCap, kvs =>
    if kvs.isEmpty then .ok (get_current_date env.today)
    else .error (.typeError "get_current_date() takes no keyword arguments")
  | .newsCap, kvs =>
    if kwargsSubset kvs ["category", "country"] then
      get_news_headlines env.newsKey env.newsNet
        ((kvs.lookup ("category")).getD (.pstr "general"))
        ((kvs.lookup ("country")).getD (.pstr "us"))
    else .error (.typeError "got an unexpected keyword argument")

/-- System prompt of the intent router (triple-quoted indentation
elided). -/
def intentSystemPrompt : String :=
  "You are an intent classification system. Your job is to determine if a user\x27s query requires calling a tool or if it\x27s a general conversational query.\n" ++
  "The user has access to tools for controlling home devices and getting information like weather, time, or news.\n" ++
  "- If the query is a command, a request for specific data, or implies an action the tools can perform, respond with the single word: \x27tool_use\x27.\n" ++
  "- If the query is a simple greeting, a question about your identity or capabilities (\x27who are you\x27), or general small talk, respond with the single word: \x27conversation\x27.\n" ++
  "Analyze the user query and provide your classification."

/-- The single request issued by `_get_intent`: classification-only (no
tools) at temperature zero. -/
def intentRequest (user_message : String) : LlmRequest :=
  ⟨[.sysMsg intentSystemPrompt, .userMsg user_message], none, some 0⟩

/-- Model of `_get_intent` in `agent.py`, applied to the gateway's reply
for the classification request. A missing/empty reply falls through to
`conversation`; a reply whose first choice has no textual content makes
`.strip()` raise; otherwise the stripped lower-cased content is tested
for the substring `tool_use`. -/
def _get_intent (resp : Option CompletionResponse) : Except PyErr String :=
  match resp with
  | none => .ok "conversation"
  | some r =>
    match r.choices with
    | [] => .ok "conversation"
    | rm :: _ =>
      match rm.content with
      | none => .error (.attributeError "content is not a string")
      | some c =>
        let intent := pyLower (pyStrip c)
        if strHasSub intent ("tool_use") then .ok "tool_use" else .ok "conversation"

/-- The tool-call loop of `run_agent` (agent.py lines 107-113): decode
each call's argument string (`json.loads`, unguarded), look the name up
in `AVAILABLE_FUNCTIONS`, silently skip unknown names, invoke known
capabilities (unguarded) and append one tool message per executed call.
The result pairs the tool messages produced before any raise with the
raised exception, if one occurred. -/
def execToolCalls (env : Env) : List ToolCall → List Msg × Option PyErr
  | [] => ([], none)
  | tc :: rest =>
    match parseJson tc.arguments with
    | none => ([], some (.jsonDecodeError tc.arguments))
    | some j =>
      match AVAILABLE_FUNCTIONS.lookup tc.name with
      | none => execToolCalls env rest
      | some cid =>
        match j with
        | .pdict kwargs =>
          match callCapability env cid kwargs with
          | .error e => ([], some e)
          | .ok result =>
            (.toolMsg tc.id tc.name (pyJsonDumps result) :: (execToolCalls env rest).1,
             (execToolCalls env rest).2)
        | _ => ([], some (.typeError "argument after ** must be a mapping"))

/-- System prompt of the action path. -/
def toolSystemPrompt : String :=
  "You are a smart home assistant. First, call the necessary tools to fulfill the user\x27s request based on their query."

/-- System prompt of the conversation path. -/
def convSystemPrompt : String :=
  "You are a friendly and helpful smart home assistant. Keep your answers concise and polite."

/-- Final summarisation instruction appended before the second
completion round trip (triple-quoted indentation elided). -/
def finalInstruction : String :=
  "You have successfully executed all required tools and their results have been provided.\n" ++
  "Now, formulate a single, cohesive, natural-language response to the user.\n" ++
  "Your response MUST address all parts of the user\x27s original query, including both confirming the actions you took AND answering any conversational questions.\n" ++
  "Synthesize all information into a friendly and complete answer."

/-- Fixed reply when the action request yields no usable response. -/
def noDecisionMsg : String := "Error getting tool call decision."

/-- Fixed reply when the action response carries no tool calls. -/
def rephraseMsg : String :=
  "I understand you want me to perform an action, but I couldn\x27t determine which tool to use. Please rephrase."

/-- Fixed reply when the synthesis round trip fails. -/
def summaryFailedMsg : String := "Tasks executed, but summary failed."

/-- Fixed reply when the conversational completion fails. -/
def convFailedMsg : String := "I\x27m having trouble thinking of a response right now."

/-- Observable outcome of one agent run: the returned value (or the
propagated exception), the ordered requests issued to the gateway, and
the tool-result messages of the executed calls. -/
structure RunOut where
  result : Except PyErr (Option String)
  requests : List LlmRequest
  toolMsgs : List Msg

/-- The action-path request of `run_agent`: the tool system prompt plus
the user message, with the capability declarations attached. -/
def toolRequest (user_message : String) : LlmRequest :=
  ⟨[.sysMsg toolSystemPrompt, .userMsg user_message], some get_tools_schema, none⟩

/-- The conversation-path request of `run_agent` (no capabilities). -/
def convRequest (user_message : String) : LlmRequest :=
  ⟨[.sysMsg convSystemPrompt, .userMsg user_message], none, none⟩

/-- The synthesis request of `run_agent`: the action conversation so far
(system prompt, user message, the assistant reply carrying the calls,
one tool message per executed call) plus the final instruction, with no
capability declarations attached. -/
def finalRequest (user_message : String) (rm : RespMessage) (toolMsgs : List Msg) : LlmRequest :=
  ⟨[Msg.sysMsg toolSystemPrompt, Msg.userMsg user_message] ++ [Msg.assistantMsg rm] ++
      toolMsgs ++ [Msg.userMsg finalInstruction], none, none⟩

/-- Model of the active `run_agent` in `agent.py` (lines 81-140). The
gateway is modelled by `script`: the reply consumed by the n-th request
is the n-th entry (a missing or `none` entry is a failed completion).
The returned `Option String` models that line 130/140 return the reply's
`content` field, which can be Python `None`. -/
def run_agent (env : Env) (script : List (Option CompletionResponse))
    (user_message : String) : RunOut :=
  match _get_intent (script.getD 0 none) with
  | .error e => ⟨.error e, [intentRequest user_message], []⟩
  | .ok intent =>
    if intent = "tool_use" then
      match script.getD 1 none with
      | none =>
        ⟨.ok (some noDecisionMsg), [intentRequest user_message, toolRequest user_message], []⟩
      | some resp =>
        match resp.choices with
        | [] =>
          ⟨.ok (some noDecisionMsg), [intentRequest user_message, toolRequest user_message], []⟩
        | rm :: _ =>
          match rm.tool_calls with
          | none =>
            ⟨.ok (some rephraseMsg), [intentRequest user_message, toolRequest user_message], []⟩
          | some [] =>
            ⟨.ok (some rephraseMsg), [intentRequest user_message, toolRequest user_message], []⟩
          | some (tc :: tcs) =>
            match execToolCalls env (tc :: tcs) with
            | (msgs, some e) =>
              ⟨.error e, [intentRequest user_message, toolRequest user_message], msgs⟩
            | (msgs, none) =>
              match script.getD 2 none with
              | none =>
                ⟨.ok (some summaryFailedMsg),
                 [intentRequest user_message, toolRequest user_message,
                  finalRequest user_message rm msgs], msgs⟩
              | some fresp =>
                match fresp.choices with
                | [] =>
                  ⟨.ok (some summaryFailedMsg),
                   [intentRequest user_message, toolRequest user_message,
                    finalRequest user_message rm msgs], msgs⟩
                | fm :: _ =>
                  ⟨.ok fm.content,
                   [intentRequest user_message, toolRequest user_message,
                    finalRequest user_message rm msgs], msgs⟩
    else
      match script.getD 1 none with
      | none =>
        ⟨.ok (some convFailedMsg), [intentRequest user_message, convRequest user_message], []⟩
      | some resp =>
        match resp.choices with
        | [] =>
          ⟨.ok (some convFailedMsg), [intentRequest user_message, convRequest user_message], []⟩
        | rm :: _ =>
          ⟨.ok rm.content, [intentRequest user_message, convRequest user_message], []⟩

/-- Model of `_format_response` in `main_api.py` (the raw tool result is
a mapping, per its type annotation). -/
def _format_response (tool_call_name : String) (tool_result : List (String × PyVal)) : PyVal :=
  let getOr := fun (k : String) (d : PyVal) => (tool_result.lookup k).getD d
  if ¬ pyTruthy (getOr ("success") .pnone) then
    .pdict [("type", .pstr "error"),
            ("content", .pstr ("An error occurred while executing " ++ tool_call_name ++ ".")),
            ("data", .pdict tool_result)]
  else if strHasSub tool_call_name ("weather") then
    .pdict [("type", .pstr "weather"),
            ("content", .pstr ("Current weather in " ++
              pyToDisplayStr (getOr ("city") (.pstr "your area")) ++ " is " ++
              pyToDisplayStr (getOr ("condition") (.pstr "unknown")) ++ ".")),
            ("data", .pdict tool_result)]
  else if strHasSub tool_call_name ("time") then
    .pdict [("type", .pstr "time"),
            ("content", .pstr ("The current time is " ++
              pyToDisplayStr (getOr ("time") (.pstr "unknown")) ++ ".")),
            ("data", .pdict tool_result)]
  else if strHasSub tool_call_name ("date") then
    .pdict [("type", .pstr "date"),
            ("content", .pstr ("Today is " ++
              pyToDisplayStr (getOr ("fullDate") (.pstr "unknown")) ++ ".")),
            ("data", .pdict tool_result)]
  else if strHasSub tool_call_name ("news") then
    .pdict [("type", .pstr "news"),
            ("content", .pstr "Here are today\x27s top headlines for you."),
            ("data", .pdict tool_result)]
  else if strHasSub tool_call_name ("device") then
    .pdict [("type", .pstr "device"),
            ("content", .pstr ("Alright, the " ++
              pyToDisplayStr (getOr ("deviceName") .pnone) ++ " was successfully " ++
              pyToDisplayStr (getOr ("action") .pnone) ++ ". ✨")),
            ("data", .pnone)]
  else
    .pdict [("type", .pstr "general"),
            ("content", .pstr "Your request has been processed successfully."),
            ("data", .pdict tool_result)]

/-- One CRC shift/xor round keeps the register below `2 ^ 16`. -/
theorem crcRound_lt (c : Nat) (hc : c < 65536) :
    (if c &&& 1 = 1 then (c >>> 1) ^^^ 0xA001 else c >>> 1) < 65536 := by
  have hsh : c >>> 1 < 65536 :=
    lt_of_le_of_lt (by rw [Nat.shiftRight_eq_div_pow]; exact Nat.div_le_self c (2 ^ 1)) hc
  by_cases h : c &&& 1 = 1
  · rw [if_pos h]
    have h16 : (65536 : Nat) = 2 ^ 16 := by norm_num
    rw [h16] at hsh ⊢
    exact Nat.xor_lt_two_pow hsh (by norm_num)
  · rw [if_neg h]
    exact hsh

/-- The inner eight-round fold keeps the register below `2 ^ 16`. -/
theorem crcFold_lt (l : List Nat) (c : Nat) (hc : c < 65536) :
    l.foldl (fun c _ => if c &&& 1 = 1 then (c >>> 1) ^^^ 0xA001 else c >>> 1) c < 65536 := by
  induction l generalizing c with
  | nil => exact hc
  | cons x xs ih => exact ih _ (crcRound_lt c hc)

/-- Folding one data byte into the register keeps it below `2 ^ 16`. -/
theorem crcByteStep_lt (crc byte : Nat) (hcrc : crc < 65536) (hb : byte < 65536) :
    crcByteStep crc byte < 65536 := by
  unfold crcByteStep
  apply crcFold_lt
  have h16 : (65536 : Nat) = 2 ^ 16 := by norm_num
  rw [h16] at hcrc hb ⊢
  exact Nat.xor_lt_two_pow hcrc hb

/-- The CRC register of any byte list with entries below `2 ^ 16` stays
below `2 ^ 16` (so `crc.to_bytes(2, ...)` in the source cannot raise). -/
theorem crc16_lt (data : List Nat) (h : ∀ b ∈ data, b < 65536) : crc16 data < 65536 := by
  unfold crc16
  have haux : ∀ (l : List Nat) (c : Nat), c < 65536 → (∀ b ∈ l, b < 65536) →
      l.foldl crcByteStep c < 65536 := by
    intro l
    induction l with
    | nil => intro c hc _; exact hc
    | cons x xs ih =>
      intro c hc hl
      exact ih _ (crcByteStep_lt c x hc (hl x (by simp))) (fun b hb => hl b (by simp [hb]))
  exact haux data 0xFFFF (by norm_num) h

/-- Claim C9: for slave id and register in 0..255 and value in 0..65535,
`generate_write_command` returns exactly 8 bytes — slave id, function
code 6, register high/low byte, value high/low byte, then the
CRC-16/Modbus checksum (initial value `0xFFFF`, polynomial `0xA001`, as
`crc16` computes) of those six bytes in little-endian order; every entry
is a valid byte; and the device controller encodes turn-on as value 2
and turn-off as value 1. -/
theorem spec_C9_generate_write_command (s r v : Nat)
    (hs : s ≤ 255) (hr : r ≤ 255) (hv : v ≤ 65535) :
    (generate_write_command s r v =
      [s, 6, r >>> 8, r &&& 0xFF, v >>> 8, v &&& 0xFF] ++
        [crc16 [s, 6, r >>> 8, r &&& 0xFF, v >>> 8, v &&& 0xFF] &&& 0xFF,
         (crc16 [s, 6, r >>> 8, r &&& 0xFF, v >>> 8, v &&& 0xFF] >>> 8) &&& 0xFF])
    ∧ (generate_write_command s r v).length = 8
    ∧ (∀ b ∈ generate_write_command s r v, b < 256)
    ∧ crc16 [s, 6, r >>> 8, r &&& 0xFF, v >>> 8, v &&& 0xFF] < 65536
    ∧ r >>> 8 = 0
    ∧ ON_VALUE = 2 ∧ OFF_VALUE = 1
    ∧ (∀ send d, turn_on_device send d = _control_device send d 2 "turned on")
    ∧ (∀ send d, turn_off_device send d = _control_device send d 1 "turned off") := by
  have hr8 : r >>> 8 = 0 := by
    rw [Nat.shiftRight_eq_div_pow]
    exact Nat.div_eq_of_lt (by omega)
  have hv8 : v >>> 8 < 256 := by
    rw [Nat.shiftRight_eq_div_pow]
    exact Nat.div_lt_of_lt_mul (by omega)
  have hand : ∀ x : Nat, x &&& 0xFF < 256 :=
    fun x => lt_of_le_of_lt (Nat.and_le_right) (by norm_num)
  refine ⟨rfl, rfl, ?_, ?_, hr8, rfl, rfl, fun _ _ => rfl, fun _ _ => rfl⟩
  · intro b hb
    simp only [generate_write_command, calculate_crc, List.mem_append, List.mem_cons,
      List.mem_singleton, List.not_mem_nil, or_false] at hb
    rcases hb with hb | hb
    · rcases hb with h | h | h | h | h | h <;> subst h
      · omega
      · omega
      · omega
      · exact hand r
      · exact hv8
      · exact hand v
    · rcases hb with h | h <;> subst h
      · exact hand _
      · exact hand _
  · exact crc16_lt _ (by
      intro b hb
      simp only [List.mem_cons, List.not_mem_nil, or_false] at hb
      rcases hb with h | h | h | h | h | h <;> subst h
      · omega
      · omega
      · omega
      · exact lt_of_lt_of_le (hand r) (by norm_num)
      · omega
      · exact lt_of_lt_of_le (hand v) (by norm_num))

set_option maxRecDepth 8192 in
/-- Witness for C9 at the kitchen-lamp turn-on frame (slave `0x36`,
register 1, value `ON_VALUE = 2`). -/
theorem spec_C9_witness :
    (generate_write_command 54 1 2).length = 8
    ∧ (∀ b ∈ generate_write_command 54 1 2, b < 256)
    ∧ generate_write_command 54 1 2 = [54, 6, 0, 1, 0, 2, 93, 140] :=
  ⟨(spec_C9_generate_write_command 54 1 2 (by decide) (by decide) (by decide)).2.1,
   (spec_C9_generate_write_command 54 1 2 (by decide) (by decide) (by decide)).2.2.1,
   by decide⟩

/-- Shared concrete oracle environment for the example runs: a serial
port that accepts every frame, a fixed clock and date, unset API keys
and failing data networks. -/
def testEnv : Env :=
  ⟨fun _ => true, ⟨12, 0, 0⟩, ⟨2026, 10, 12⟩, none, none,
   .requestError "timeout", .requestError "timeout"⟩

/-- Classification reply selecting the action path. -/
def toolUseResp : CompletionResponse := ⟨[⟨some "tool_use", none⟩]⟩

/-- A well-formed call of the time capability. -/
def timeTc : ToolCall := ⟨"1", "call_get_current_time", "\x7b\x7d"⟩

/-- A call whose argument payload is not decodable JSON. -/
def badArgsTc : ToolCall := ⟨"2", "call_get_current_time", "oops"⟩

/-- A call whose name is absent from the capability table. -/
def unknownTc : ToolCall := ⟨"3", "call_nope", "\x7b\x7d"⟩

/-- An action reply carrying the given native structured call list. -/
def callsResp (tcs : List ToolCall) : CompletionResponse := ⟨[⟨none, some tcs⟩]⟩

/-- A plain textual completion reply. -/
def textResp (s : String) : CompletionResponse := ⟨[⟨some s, none⟩]⟩

/-- Field lookup on a formatted response object. -/
def respField (r : PyVal) (k : String) : Option PyVal :=
  match r with
  | .pdict kvs => kvs.lookup k
  | _ => none

/-- Counterexample to claim C10 as stated: a truthy-success result for a
tool name containing both `device` and `weather` is matched by the
earlier `weather` branch of `_format_response`, so its `data` field
carries the raw result instead of the claimed `null`. -/
theorem spec_C10_counterexample :
    strHasSub "my_device_weather" ("device") = true
    ∧ pyTruthy ((([("success", PyVal.pbool true)].lookup ("success")).getD .pnone)) = true
    ∧ respField (_format_response "my_device_weather" [("success", .pbool true)]) ("data")
        = some (.pdict [("success", .pbool true)])
    ∧ some (PyVal.pdict [("success", PyVal.pbool true)]) ≠ some PyVal.pnone
    ∧ respField (_format_response "my_device_weather" [("success", .pbool true)]) ("type")
        = some (.pstr "weather") := by
  refine ⟨by decide, by decide, rfl, ?_, rfl⟩
  intro h
  exact PyVal.noConfusion (Option.some.inj h)

/-- Claim C10 (amended): `_format_response` applies its category tests
in the fixed order weather, time, date, news, device. A result with a
missing or falsy `success` yields an error object carrying the raw
result; a truthy-success result whose name matches `device` and none of
the four earlier category substrings yields a `device` object with a
null `data` payload; a truthy-success result whose name does not
contain `device` always carries the full raw result in `data`; and in
general, for a truthy-success result, the `data` payload is null
exactly when the name contains `device` and none of `weather`, `time`,
`date`, `news`. -/
theorem spec_C10_format_response (name : String) (result : List (String × PyVal)) :
    (pyTruthy ((result.lookup ("success")).getD .pnone) = false →
        respField (_format_response name result) ("type") = some (.pstr "error")
        ∧ respField (_format_response name result) ("data") = some (.pdict result))
    ∧ (pyTruthy ((result.lookup ("success")).getD .pnone) = true →
        (strHasSub name ("weather") = false → strHasSub name ("time") = false →
         strHasSub name ("date") = false → strHasSub name ("news") = false →
         strHasSub name ("device") = true →
            respField (_format_response name result) ("type") = some (.pstr "device")
            ∧ respField (_format_response name result) ("data") = some .pnone)
        ∧ (strHasSub name ("device") = false →
            respField (_format_response name result) ("data") = some (.pdict result))
        ∧ (respField (_format_response name result) ("data") = some .pnone ↔
            (strHasSub name ("device") = true ∧ strHasSub name ("weather") = false
             ∧ strHasSub name ("time") = false ∧ strHasSub name ("date") = false
             ∧ strHasSub name ("news") = false))) := by
  constructor
  · intro h
    simp [_format_response, h, respField]
    rfl
  · intro h
    refine ⟨?_, ?_, ?_⟩
    · intro h1 h2 h3 h4 h5
      simp [_format_response, h, h1, h2, h3, h4, h5, respField]
      rfl
    · intro h5
      by_cases h1 : strHasSub name ("weather") = true
      · simp [_format_response, h, h1, respField]
        rfl
      · by_cases h2 : strHasSub name ("time") = true
        · simp [_format_response, h, h1, h2, respField]
          rfl
        · by_cases h3 : strHasSub name ("date") = true
          · simp [_format_response, h, h1, h2, h3, respField]
            rfl
          · by_cases h4 : strHasSub name ("news") = true
            · simp [_format_response, h, h1, h2, h3, h4, respField]
              rfl
            · simp [_format_response, h, h1, h2, h3, h4, h5, respField]
              rfl
    · by_cases h1 : strHasSub name ("weather") = true
      · have hd : respField (_format_response name result) ("data") = some (.pdict result) := by
          simp [_format_response, h, h1, respField]; rfl
        rw [hd]
        constructor
        · intro h'
          exact PyVal.noConfusion (Option.some.inj h')
        · rintro ⟨-, hw, -, -, -⟩
          rw [h1] at hw
          exact Bool.noConfusion hw
      · by_cases h2 : strHasSub name ("time") = true
        · have hd : respField (_format_response name result) ("data") = some (.pdict result) := by
            simp [_format_response, h, h1, h2, respField]; rfl
          rw [hd]
          constructor
          · intro h'
            exact PyVal.noConfusion (Option.some.inj h')
          · rintro ⟨-, -, htm, -, -⟩
            rw [h2] at htm
            exact Bool.noConfusion htm
        · by_cases h3 : strHasSub name ("date") = true
          · have hd : respField (_format_response name result) ("data") = some (.pdict result) := by
              simp [_format_response, h, h1, h2, h3, respField]; rfl
            rw [hd]
            constructor
            · intro h'
              exact PyVal.noConfusion (Option.some.inj h')
            · rintro ⟨-, -, -, hdt, -⟩
              rw [h3] at hdt
              exact Bool.noConfusion hdt
          · by_cases h4 : strHasSub name ("news") = true
            · have hd : respField (_format_response name result) ("data") = some (.pdict result) := by
                simp [_format_response, h, h1, h2, h3, h4, respField]; rfl
              rw [hd]
              constructor
              · intro h'
                exact PyVal.noConfusion (Option.some.inj h')
              · rintro ⟨-, -, -, -, hn⟩
                rw [h4] at hn
                exact Bool.noConfusion hn
            · by_cases h5 : strHasSub name ("device") = true
              · have hd : respField (_format_response name result) ("data") = some .pnone := by
                  simp [_format_response, h, h1, h2, h3, h4, h5, respField]; rfl
                rw [hd]
                constructor
                · intro _
                  exact ⟨h5, by simpa using h1, by simpa using h2, by simpa using h3,
                    by simpa using h4⟩
                · intro _
                  rfl
              · have hd : respField (_format_response name result) ("data")
                    = some (.pdict result) := by
                  simp [_format_response, h, h1, h2, h3, h4, h5, respField]; rfl
                rw [hd]
                constructor
                · intro h'
                  exact PyVal.noConfusion (Option.some.inj h')
                · rintro ⟨hdev, -, -, -, -⟩
                  exact absurd hdev h5

/-- Witness for C10: the real device capability name takes the device
branch (null `data`), and the real time capability name keeps its
payload. -/
theorem spec_C10_witness :
    respField (_format_response "call_turn_on_device" [("success", .pbool true)]) ("data")
        = some .pnone
    ∧ respField (_format_response "call_get_current_time" [("success", .pbool true)]) ("data")
        = some (.pdict [("success", .pbool true)])
    ∧ respField (_format_response "my_device_time" [("success", .pbool true)]) ("data")
        ≠ some .pnone :=
  ⟨(((spec_C10_format_response "call_turn_on_device" [("success", .pbool true)]).2
      (by decide)).1 (by decide) (by decide) (by decide) (by decide) (by decide)).2,
   ((spec_C10_format_response "call_get_current_time" [("success", .pbool true)]).2
      (by decide)).2.1 (by decide),
   fun h' => absurd
     ((((spec_C10_format_response "my_device_time" [("success", .pbool true)]).2
        (by decide)).2.2).mp h').2.2.1 (by decide)⟩

/-- The concrete scenario text of claim C6: prose containing a fenced
JSON block with one call object. -/
def c6Scenario : String :=
  "Sure, calling it now.\n```json\n[\x7b\"name\":\"get_current_time\",\"arguments\":\x7b\x7d\x7d]\n```\nDone."

/-- Claim C6: the fenced-block strategy returns a decoded list as the
call list, wraps a decoded single object into a one-element list, and
yields no calls — without raising — when no fenced JSON block exists or
when the block fails to decode; on the scenario text carrying the fenced
block `[{"name":"get_current_time","arguments":{}}]` it yields exactly
one call. -/
theorem spec_C6_parse_tool_calls :
    (∀ content : String, extractFencedJson content.data = none →
        parse_tool_calls_from_content content = none)
    ∧ (∀ (content : String) (block : List Char), extractFencedJson content.data = some block →
        (∀ xs, parseJson (String.mk block) = some (.plist xs) →
            parse_tool_calls_from_content content = some xs)
        ∧ (∀ kvs, parseJson (String.mk block) = some (.pdict kvs) →
            parse_tool_calls_from_content content = some [.pdict kvs])
        ∧ (parseJson (String.mk block) = none →
            parse_tool_calls_from_content content = none))
    ∧ parse_tool_calls_from_content c6Scenario =
        some [.pdict [("name", .pstr "get_current_time"), ("arguments", .pdict [])]] := by
  refine ⟨?_, ?_, ?_⟩
  · intro content h
    simp [parse_tool_calls_from_content, h]
  · intro content block h
    refine ⟨?_, ?_, ?_⟩
    · intro xs hx
      simp [parse_tool_calls_from_content, h, hx]
    · intro kvs hk
      simp [parse_tool_calls_from_content, h, hk]
    · intro hn
      simp [parse_tool_calls_from_content, h, hn]
  · rfl

/-- Witness for C6: a text without any fenced block yields no calls, and
a fenced single object is wrapped into a one-element list. -/
theorem spec_C6_witness :
    parse_tool_calls_from_content "just prose, no calls" = none
    ∧ parse_tool_calls_from_content "```json\n\x7b\"name\":\"call_get_current_date\",\"arguments\":\x7b\x7d\x7d\n```"
        = some [.pdict [("name", .pstr "call_get_current_date"), ("arguments", .pdict [])]] :=
  ⟨spec_C6_parse_tool_calls.1 "just prose, no calls" rfl,
   (spec_C6_parse_tool_calls.2.1
      "```json\n\x7b\"name\":\"call_get_current_date\",\"arguments\":\x7b\x7d\x7d\n```"
      ("\x7b\"name\":\"call_get_current_date\",\"arguments\":\x7b\x7d\x7d".data) rfl).2.1
      [("name", .pstr "call_get_current_date"), ("arguments", .pdict [])] rfl⟩

/-- Counterexample to claim C7 as stated: the router tests for the
`tool_use` label by substring containment, so a reply that is not the
label (case-insensitively) — here `not tool_use` — is still routed to
`tool_use`. -/
theorem spec_C7_counterexample :
    _get_intent (some (textResp "not tool_use")) = .ok "tool_use"
    ∧ pyLower (pyStrip "not tool_use") ≠ "tool_use" :=
  ⟨rfl, by decide⟩

/-- Claim C7 (amended): every agent run's first gateway request is the
router's single classification request, carrying no capability
declarations and temperature zero; the router yields `tool_use` exactly
when the reply carries textual content whose stripped lower-cased form
contains the `tool_use` label; a missing reply, an empty reply, or a
textual reply without that substring yields `conversation`. (A reply
whose first choice carries no textual content makes `.strip()` raise, so
that case sits outside the claim.) -/
theorem spec_C7_intent_router (env : Env) (script : List (Option CompletionResponse))
    (msg : String) :
    ((run_agent env script msg).requests.head? = some (intentRequest msg)
      ∧ (intentRequest msg).tools = none
      ∧ (intentRequest msg).temperature = some 0)
    ∧ (∀ r, _get_intent r = .ok "tool_use" ↔
        (∃ resp rm c, r = some resp ∧ resp.choices.head? = some rm ∧ rm.content = some c
          ∧ strHasSub (pyLower (pyStrip c)) ("tool_use") = true))
    ∧ (_get_intent none = .ok "conversation")
    ∧ (∀ resp, resp.choices = [] → _get_intent (some resp) = .ok "conversation")
    ∧ (∀ resp rm c rest, resp.choices = rm :: rest → rm.content = some c →
        strHasSub (pyLower (pyStrip c)) ("tool_use") = false →
        _get_intent (some resp) = .ok "conversation") := by
  refine ⟨⟨?_, rfl, rfl⟩, ?_, rfl, ?_, ?_⟩
  · unfold run_agent
    (repeat' split) <;> rfl
  · intro r
    constructor
    · intro h
      rcases r with _ | resp
      · exact absurd h (by simp [_get_intent])
      · rcases hc : resp.choices with _ | ⟨rm, rest⟩
        · rw [show _get_intent (some resp) = .ok "conversation" by
            simp [_get_intent, hc]] at h
          exact absurd (Except.ok.inj h) (by decide)
        · rcases hco : rm.content with _ | c
          · rw [show _get_intent (some resp) = .error (.attributeError "content is not a string") by
              simp [_get_intent, hc, hco]] at h
            exact Except.noConfusion h
          · by_cases hs : strHasSub (pyLower (pyStrip c)) ("tool_use") = true
            · exact ⟨resp, rm, c, rfl, by simp [hc], hco, hs⟩
            · rw [show _get_intent (some resp) = .ok "conversation" by
                simp [_get_intent, hc, hco, hs]] at h
              exact absurd (Except.ok.inj h) (by decide)
    · rintro ⟨resp, rm, c, hr, hch, hco, hs⟩
      subst hr
      obtain ⟨rest, hrest⟩ : ∃ t, resp.choices = rm :: t := by
        rcases hcs : resp.choices with _ | ⟨a, t⟩
        · rw [hcs] at hch
          exact absurd hch (by simp)
        · rw [hcs] at hch
          exact ⟨t, by rw [List.head?_cons] at hch; rw [Option.some.inj hch]⟩
      simp [_get_intent, hrest, hco, hs]
  · intro resp h
    simp [_get_intent, h]
  · intro resp rm c rest h hco hs
    simp [_get_intent, h, hco, hs]

/-- Witness for C7: a padded upper-case label reply routes to
`tool_use`, a greeting routes to `conversation`. -/
theorem spec_C7_witness :
    _get_intent (some (textResp "  Tool_Use  ")) = .ok "tool_use"
    ∧ _get_intent (some (textResp "hello!")) = .ok "conversation" :=
  ⟨((spec_C7_intent_router testEnv [] "m").2.1 (some (textResp "  Tool_Use  "))).mpr
      ⟨textResp "  Tool_Use  ", ⟨some "  Tool_Use  ", none⟩, "  Tool_Use  ", rfl, rfl, rfl,
        by decide⟩,
   (spec_C7_intent_router testEnv [] "m").2.2.2.2 (textResp "hello!")
      ⟨some "hello!", none⟩ "hello!" [] rfl rfl (by decide)⟩

/-- Counterexample to claim C1 as stated: a batch whose first call
carries an undecodable argument payload makes the unguarded `json.loads`
raise — the run propagates a decode error instead of producing a failed
result, and the well-formed sibling call is never executed. -/
theorem spec_C1_counterexample :
    (run_agent testEnv [some toolUseResp, some (callsResp [badArgsTc, timeTc])] "turn").result
      = .error (.jsonDecodeError "oops")
    ∧ (run_agent testEnv [some toolUseResp, some (callsResp [badArgsTc, timeTc])] "turn").toolMsgs
      = [] :=
  ⟨rfl, rfl⟩

/-- Claim C1 (amended): a call whose argument payload fails to decode
aborts the batch at that call — the calls before it keep their results,
the decode error is raised (and propagates out of the loop), and no
sibling call after the malformed one is executed. -/
theorem spec_C1_decode_aborts_batch (env : Env) (pre rest : List ToolCall) (tc : ToolCall)
    (msgs : List Msg) (hpre : execToolCalls env pre = (msgs, none))
    (hbad : parseJson tc.arguments = none) :
    execToolCalls env (pre ++ tc :: rest) = (msgs, some (.jsonDecodeError tc.arguments)) := by
  induction pre generalizing msgs with
  | nil =>
    have hm : msgs = [] := by
      have := congrArg Prod.fst hpre
      simpa [execToolCalls] using this.symm
    subst hm
    simp [execToolCalls, hbad]
  | cons p ps ih =>
    rw [List.cons_append]
    rcases hp : parseJson p.arguments with _ | j
    · simp [execToolCalls, hp] at hpre
    · rcases hl : AVAILABLE_FUNCTIONS.lookup p.name with _ | cid
      · simp only [execToolCalls, hp, hl] at hpre ⊢
        exact ih msgs hpre
      · rcases j with _ | b | n | s | xs | kwargs
        · simp [execToolCalls, hp, hl] at hpre
        · simp [execToolCalls, hp, hl] at hpre
        · simp [execToolCalls, hp, hl] at hpre
        · simp [execToolCalls, hp, hl] at hpre
        · simp [execToolCalls, hp, hl] at hpre
        · rcases hc : callCapability env cid kwargs with e | result
          · simp [execToolCalls, hp, hl, hc] at hpre
          · simp only [execToolCalls, hp, hl, hc, Prod.mk.injEq] at hpre ⊢
            obtain ⟨h1, h2⟩ := hpre
            have hps : execToolCalls env ps = ((execToolCalls env ps).1, none) := by
              rw [← h2]
            rw [ih (execToolCalls env ps).1 hps]
            simp [← h1]

/-- Witness for C1 (amended): a good call, then a malformed call, then
another good call — the first result survives, the decode error is
raised, the trailing call never runs. -/
theorem spec_C1_witness :
    execToolCalls testEnv ([timeTc] ++ badArgsTc :: [timeTc]) =
      ([Msg.toolMsg "1" "call_get_current_time" "\"Current time: 12:00:00.\""],
       some (.jsonDecodeError "oops")) :=
  spec_C1_decode_aborts_batch testEnv [timeTc] [timeTc] badArgsTc
    [Msg.toolMsg "1" "call_get_current_time" "\"Current time: 12:00:00.\""] rfl rfl

/-- Counterexample to claim C2 as stated: a 2-call batch whose first
call has an unknown name yields one result, not two — the unknown call
is silently dropped and no unknown-action failure is recorded. -/
theorem spec_C2_counterexample :
    (run_agent testEnv [some toolUseResp, some (callsResp [unknownTc, timeTc]),
        some (textResp "done")] "msg").toolMsgs
      = [Msg.toolMsg "1" "call_get_current_time" "\"Current time: 12:00:00.\""]
    ∧ (run_agent testEnv [some toolUseResp, some (callsResp [unknownTc, timeTc]),
        some (textResp "done")] "msg").toolMsgs.length ≠ 2
    ∧ (run_agent testEnv [some toolUseResp, some (callsResp [unknownTc, timeTc]),
        some (textResp "done")] "msg").result = .ok (some "done") :=
  ⟨rfl, by decide, rfl⟩

/-- Claim C2 (amended): a call whose name is absent from the capability
table (and whose argument payload decodes) is silently skipped: the
batch behaves exactly as if that call were removed, so a batch of N
calls with one unknown name yields N−1 results in the original order
and no failed result for the unknown call. -/
theorem spec_C2_unknown_skipped (env : Env) (pre rest : List ToolCall) (tc : ToolCall)
    (hunk : AVAILABLE_FUNCTIONS.lookup tc.name = none)
    (hargs : (parseJson tc.arguments).isSome = true) :
    execToolCalls env (pre ++ tc :: rest) = execToolCalls env (pre ++ rest) := by
  induction pre with
  | nil =>
    obtain ⟨j, hj⟩ := Option.isSome_iff_exists.mp hargs
    simp [execToolCalls, hj, hunk]
  | cons p ps ih =>
    rw [List.cons_append, List.cons_append, execToolCalls]
    conv_rhs => rw [execToolCalls]
    rw [ih]

/-- Witness for C2 (amended): a batch `[time, unknown, time]` behaves
exactly like `[time, time]`. -/
theorem spec_C2_witness :
    execToolCalls testEnv ([timeTc] ++ unknownTc :: [timeTc]) =
      execToolCalls testEnv ([timeTc] ++ [timeTc]) :=
  spec_C2_unknown_skipped testEnv [timeTc] [timeTc] unknownTc rfl rfl

/-- A carried tool call is benign when its argument payload decodes, and
— if its name is registered — the payload is a mapping accepted by the
capability, which then returns normally. -/
def toolCallBenign (env : Env) (tc : ToolCall) : Bool :=
  match parseJson tc.arguments with
  | none => false
  | some j =>
    match AVAILABLE_FUNCTIONS.lookup tc.name with
    | none => true
    | some cid =>
      match j with
      | .pdict kwargs =>
        match callCapability env cid kwargs with
        | .ok _ => true
        | .error _ => false
      | _ => false

/-- A gateway reply is benign when it is absent, empty, or its first
choice carries textual content and only benign tool calls. -/
def respBenign (env : Env) (r : Option CompletionResponse) : Bool :=
  match r with
  | none => true
  | some resp =>
    match resp.choices with
    | [] => true
    | rm :: _ =>
      rm.content.isSome &&
      (match rm.tool_calls with
       | none => true
       | some tcs => tcs.all (toolCallBenign env))

/-- A batch of benign tool calls executes without raising. -/
theorem execToolCalls_benign (env : Env) (tcs : List ToolCall)
    (h : tcs.all (toolCallBenign env) = true) :
    (execToolCalls env tcs).2 = none := by
  induction tcs with
  | nil => rfl
  | cons tc rest ih =>
    rw [List.all_cons, Bool.and_eq_true] at h
    obtain ⟨htc, hrest⟩ := h
    rcases hp : parseJson tc.arguments with _ | j
    · simp [toolCallBenign, hp] at htc
    · rcases hl : AVAILABLE_FUNCTIONS.lookup tc.name with _ | cid
      · simp only [execToolCalls, hp, hl]
        exact ih hrest
      · rcases j with _ | b | n | s | xs | kwargs
        · simp [toolCallBenign, hp, hl] at htc
        · simp [toolCallBenign, hp, hl] at htc
        · simp [toolCallBenign, hp, hl] at htc
        · simp [toolCallBenign, hp, hl] at htc
        · simp [toolCallBenign, hp, hl] at htc
        · rcases hc : callCapability env cid kwargs with e | result
          · simp [toolCallBenign, hp, hl, hc] at htc
          · simp only [execToolCalls, hp, hl, hc]
            exact ih hrest

/-- Counterexample to claim C3 as stated: a capability raising during
invocation (here a keyword-binding `TypeError` on the zero-argument
time capability) propagates out of `run_agent` instead of being
surfaced as a failed result. -/
theorem spec_C3_counterexample :
    (run_agent testEnv
        [some toolUseResp,
         some (callsResp [⟨"1", "call_get_current_time", "\x7b\"x\": 1\x7d"⟩])] "msg").result
      = .error (.typeError "get_current_time() takes no keyword arguments") :=
  rfl

/-- The router cannot raise on a benign reply. -/
theorem getIntent_benign (env : Env) (r : Option CompletionResponse)
    (h : respBenign env r = true) : ∃ i, _get_intent r = .ok i := by
  rcases r with _ | resp
  · exact ⟨"conversation", rfl⟩
  · rcases hc : resp.choices with _ | ⟨rm, rest⟩
    · exact ⟨"conversation", by simp [_get_intent, hc]⟩
    · simp only [respBenign, hc, Bool.and_eq_true] at h
      obtain ⟨hcont, _⟩ := h
      obtain ⟨c, hc2⟩ := Option.isSome_iff_exists.mp hcont
      by_cases hs : strHasSub (pyLower (pyStrip c)) ("tool_use") = true
      · exact ⟨"tool_use", by simp [_get_intent, hc, hc2, hs]⟩
      · exact ⟨"conversation", by simp [_get_intent, hc, hc2, hs]⟩

/-- Claim C3 (amended): `run_agent` returns a string for every user
message and every gateway script whose replies are benign — textual (or
failed/empty) and carrying only tool calls that decode to mappings their
capabilities accept without raising. Outside that envelope a decode
failure or a capability exception propagates to the caller, as the
counterexample shows. -/
theorem spec_C3_no_unhandled (env : Env) (script : List (Option CompletionResponse))
    (msg : String)
    (h0 : respBenign env (script.getD 0 none) = true)
    (h1 : respBenign env (script.getD 1 none) = true)
    (h2 : respBenign env (script.getD 2 none) = true) :
    ∃ s, (run_agent env script msg).result = .ok (some s) := by
  unfold run_agent
  obtain ⟨i, hi⟩ := getIntent_benign env _ h0
  simp only [hi]
  by_cases hti : i = "tool_use"
  · subst hti
    rw [if_pos rfl]
    rcases hr1 : script.getD 1 none with _ | resp1
    · exact ⟨noDecisionMsg, rfl⟩
    · rw [hr1] at h1
      dsimp only
      rcases hc1 : resp1.choices with _ | ⟨rm, rest⟩
      · simp only [hc1]
        exact ⟨noDecisionMsg, rfl⟩
      · simp only [hc1]
        simp only [respBenign, hc1, Bool.and_eq_true] at h1
        obtain ⟨hcont1, hcalls1⟩ := h1
        rcases htc : rm.tool_calls with _ | tcs
        · simp only [htc]
          exact ⟨rephraseMsg, rfl⟩
        · simp only [htc] at hcalls1 ⊢
          rcases tcs with _ | ⟨tc, tcs2⟩
          · exact ⟨rephraseMsg, rfl⟩
          · dsimp only
            have hexec : (execToolCalls env (tc :: tcs2)).2 = none :=
              execToolCalls_benign env _ hcalls1
            rcases hee : execToolCalls env (tc :: tcs2) with ⟨msgs, err⟩
            rw [hee] at hexec
            dsimp only at hexec
            subst hexec
            dsimp only
            rcases hr2 : script.getD 2 none with _ | resp2
            · exact ⟨summaryFailedMsg, rfl⟩
            · rw [hr2] at h2
              dsimp only
              rcases hc2 : resp2.choices with _ | ⟨fm, frest⟩
              · simp only [hc2]
                exact ⟨summaryFailedMsg, rfl⟩
              · simp only [hc2]
                simp only [respBenign, hc2, Bool.and_eq_true] at h2
                obtain ⟨hcont2, _⟩ := h2
                obtain ⟨s, hs⟩ := Option.isSome_iff_exists.mp hcont2
                exact ⟨s, by simp only [hs]⟩
  · rw [if_neg hti]
    rcases hr1 : script.getD 1 none with _ | resp1
    · exact ⟨convFailedMsg, rfl⟩
    · rw [hr1] at h1
      dsimp only
      rcases hc1 : resp1.choices with _ | ⟨rm, rest⟩
      · simp only [hc1]
        exact ⟨convFailedMsg, rfl⟩
      · simp only [hc1]
        simp only [respBenign, hc1, Bool.and_eq_true] at h1
        obtain ⟨hcont1, _⟩ := h1
        obtain ⟨s, hs⟩ := Option.isSome_iff_exists.mp hcont1
        exact ⟨s, by simp only [hs]⟩

/-- Witness for C3 (amended): a benign script — classification reply,
an action reply with one well-formed time call, a textual summary —
yields a string. -/
theorem spec_C3_witness :
    ∃ s, (run_agent testEnv
        [some toolUseResp, some ⟨[⟨some "x", some [timeTc]⟩]⟩, some (textResp "all done")]
        "m").result = .ok (some s) :=
  spec_C3_no_unhandled testEnv
    [some toolUseResp, some ⟨[⟨some "x", some [timeTc]⟩]⟩, some (textResp "all done")]
    "m" (by decide) (by decide) (by decide)

/-- Counterexample to claim C4 as stated: the action path with a reply
that carries no structured call list and plain free text returns the
fixed rephrase message, not the reply's free-text content (the active
orchestrator never invokes the fenced-block or scan fallbacks). -/
theorem spec_C4_counterexample :
    (run_agent testEnv [some toolUseResp, some (textResp "hello there")] "msg").result
      = .ok (some rephraseMsg)
    ∧ rephraseMsg ≠ "hello there"
    ∧ (run_agent testEnv [some toolUseResp, some (textResp "hello there")] "msg").requests
      = [intentRequest "msg", toolRequest "msg"] :=
  ⟨rfl, by decide, rfl⟩

/-- Claim C4 (amended): when the action-path reply carries no structured
call list (absent or empty `tool_calls`), `run_agent` returns the fixed
rephrase-request message — the free-text content is discarded, no
fallback extraction is attempted, and no synthesis round trip occurs
(the run stops at two gateway requests). -/
theorem spec_C4_no_calls_fixed_message (env : Env) (script : List (Option CompletionResponse))
    (msg : String) (resp : CompletionResponse) (rm : RespMessage) (rest : List RespMessage)
    (h0 : _get_intent (script.getD 0 none) = .ok "tool_use")
    (h1 : script.getD 1 none = some resp)
    (hc : resp.choices = rm :: rest)
    (htc : rm.tool_calls = none ∨ rm.tool_calls = some []) :
    (run_agent env script msg).result = .ok (some rephraseMsg)
    ∧ (run_agent env script msg).requests = [intentRequest msg, toolRequest msg] := by
  unfold run_agent
  simp only [h0]
  rw [if_pos trivial]
  simp only [h1]
  simp only [hc]
  rcases htc with h | h <;> simp [h]

/-- Witness for C4 (amended) at a concrete script. -/
theorem spec_C4_witness :
    (run_agent testEnv [some toolUseResp, some (textResp "what do you mean")] "m").result
      = .ok (some rephraseMsg) :=
  (spec_C4_no_calls_fixed_message testEnv
      [some toolUseResp, some (textResp "what do you mean")] "m"
      (textResp "what do you mean") ⟨some "what do you mean", none⟩ []
      rfl rfl rfl (Or.inl rfl)).1

/-- A completion attempt that yields no usable reply: the gateway failed
outright or returned no choices. -/
def completionFailed : Option CompletionResponse → Bool
  | none => true
  | some resp => resp.choices.isEmpty

/-- Counterexample to claim C8 as stated: a batch whose second call is
malformed executes one action and then raises, so no synthesis request
is ever issued even though an action was executed — and the executed
result is dropped with the exception. -/
theorem spec_C8_counterexample :
    (run_agent testEnv [some toolUseResp, some (callsResp [timeTc, badArgsTc])] "msg").toolMsgs
      = [Msg.toolMsg "1" "call_get_current_time" "\"Current time: 12:00:00.\""]
    ∧ (run_agent testEnv [some toolUseResp, some (callsResp [timeTc, badArgsTc])] "msg").requests
      = [intentRequest "msg", toolRequest "msg"]
    ∧ (run_agent testEnv [some toolUseResp, some (callsResp [timeTc, badArgsTc])] "msg").result
      = .error (.jsonDecodeError "oops") :=
  ⟨rfl, rfl, rfl⟩

/-- Claim C8 (amended): when the action batch completes without raising,
the run issues exactly one further completion request — the synthesis
request, with no capability declarations and no temperature — and if
that third completion fails the run returns the fixed message `Tasks
executed, but summary failed.` instead of dropping the results. -/
theorem spec_C8_synthesis (env : Env) (script : List (Option CompletionResponse)) (msg : String)
    (resp : CompletionResponse) (rm : RespMessage) (rest : List RespMessage)
    (tc : ToolCall) (tcs : List ToolCall)
    (h0 : _get_intent (script.getD 0 none) = .ok "tool_use")
    (h1 : script.getD 1 none = some resp)
    (hc : resp.choices = rm :: rest)
    (htc : rm.tool_calls = some (tc :: tcs))
    (hexec : (execToolCalls env (tc :: tcs)).2 = none) :
    (run_agent env script msg).requests =
      [intentRequest msg, toolRequest msg,
       finalRequest msg rm (execToolCalls env (tc :: tcs)).1]
    ∧ (finalRequest msg rm (execToolCalls env (tc :: tcs)).1).tools = none
    ∧ (completionFailed (script.getD 2 none) = true →
        (run_agent env script msg).result = .ok (some summaryFailedMsg)) := by
  unfold run_agent
  simp only [h0]
  rw [if_pos trivial]
  simp only [h1]
  simp only [hc, htc]
  rcases hee : execToolCalls env (tc :: tcs) with ⟨msgs, err⟩
  rw [hee] at hexec
  dsimp only at hexec
  subst hexec
  dsimp only
  rcases hr2 : script.getD 2 none with _ | resp2
  · exact ⟨by trivial, by trivial, fun _ => by trivial⟩
  · dsimp only
    rcases hc2 : resp2.choices with _ | ⟨fm, frest⟩
    · simp only [hc2]
      exact ⟨by trivial, by trivial, fun _ => by trivial⟩
    · simp only [hc2]
      refine ⟨by trivial, by trivial, fun hfail => ?_⟩
      simp [completionFailed, hc2] at hfail

/-- Witness for C8 (amended): one well-formed call and a missing third
reply — three requests, last one with no tools, fixed summary-failure
message. -/
theorem spec_C8_witness :
    (run_agent testEnv [some toolUseResp, some (callsResp [timeTc])] "m").requests =
      [intentRequest "m", toolRequest "m",
       finalRequest "m" ⟨none, some [timeTc]⟩ (execToolCalls testEnv [timeTc]).1]
    ∧ (run_agent testEnv [some toolUseResp, some (callsResp [timeTc])] "m").result
      = .ok (some summaryFailedMsg) :=
  ⟨(spec_C8_synthesis testEnv [some toolUseResp, some (callsResp [timeTc])] "m"
      (callsResp [timeTc]) ⟨none, some [timeTc]⟩ [] timeTc [] rfl rfl rfl rfl rfl).1,
   (spec_C8_synthesis testEnv [some toolUseResp, some (callsResp [timeTc])] "m"
      (callsResp [timeTc]) ⟨none, some [timeTc]⟩ [] timeTc [] rfl rfl rfl rfl rfl).2.2
      (by decide)⟩

/-- Counterexample to claim C5 as stated: the registered time capability
returns a bare formatted string, not a result mapping carrying a
`success` boolean. -/
theorem spec_C5_counterexample :
    AVAILABLE_FUNCTIONS.lookup ("call_get_current_time") = some CapId.timeCap
    ∧ callCapability testEnv .timeCap [] = .ok (get_current_time testEnv.clock)
    ∧ get_current_time testEnv.clock = .pstr "Current time: 12:00:00."
    ∧ (∀ kvs, get_current_time testEnv.clock ≠ .pdict kvs) := by
  refine ⟨rfl, rfl, rfl, fun kvs h => ?_⟩
  rw [show get_current_time testEnv.clock = .pstr "Current time: 12:00:00." from rfl] at h
  exact PyVal.noConfusion h

/-- A weather fetch outcome is benign when it fails at the request
layer, or decodes to a dict whose payload either misses the 200 status
or lets the field extraction finish with at most a (caught) `KeyError`. -/
def weatherNetBenign : HttpOutcome → Bool
  | .requestError _ => true
  | .okResp (.pdict kvs) =>
    if codIs200 ((kvs.lookup ("cod")).getD .pnone) then
      match weatherFields (.pdict kvs) with
      | .ok _ => true
      | .error (.keyError _) => true
      | .error _ => false
    else true
  | .okResp _ => false

/-- A news fetch outcome is benign when it fails at the request layer,
or decodes to a dict whose `articles` value is falsy or a list whose
iteration raises at most a (caught) `KeyError`. -/
def newsNetBenign : HttpOutcome → Bool
  | .requestError _ => true
  | .okResp (.pdict kvs) =>
    match (kvs.lookup ("articles")).getD (.plist []) with
    | .plist xs =>
      if pyTruthy (.plist xs) then
        match newsTitles xs with
        | .ok _ => true
        | .error (.keyError _) => true
        | .error _ => false
      else true
    | v => if pyTruthy v then false else true
  | .okResp _ => false

/-- Attribute access `data.get(k, d)` on a decoded dict always succeeds
with the looked-up or default value. -/
theorem pyDictGet_dict (kvs : List (String × PyVal)) (k : String) (d : PyVal) :
    pyDictGet (.pdict kvs) k d = .ok ((kvs.lookup k).getD d) := by
  unfold pyDictGet
  dsimp only
  rcases kvs.lookup k with _ | v <;> rfl

/-- Claim C5 (amended): the device-control capabilities return result
mappings with at least a `success` boolean — plus the device display
name and the action taken on success, and an `error` string on failure.
The data-lookup capabilities do not follow that contract: they return
bare formatted strings — unconditionally for time and date, on every
benign fetch outcome for weather, and on every benign fetch outcome for
news when the country argument is a string (as the schema validates); a
non-string country on the news success path raises an uncaught
`TypeError` from the plain string concatenation, shown at the concrete
input `country = 5`. -/
theorem spec_C5_capability_contract :
    (∀ (send : List Nat → Bool) (d : String) (v : Nat) (a : String),
      ∃ kvs b, _control_device send d v a = .pdict kvs
        ∧ kvs.lookup ("success") = some (.pbool b)
        ∧ (b = true → (∃ n, kvs.lookup ("deviceName") = some (.pstr n))
            ∧ kvs.lookup ("action") = some (.pstr a))
        ∧ (b = false → ∃ e, kvs.lookup ("error") = some (.pstr e)))
    ∧ (∀ c : Clock, ∃ s, get_current_time c = .pstr s)
    ∧ (∀ t : DateOracle, ∃ s, get_current_date t = .pstr s)
    ∧ (∀ (key : Option String) (net : HttpOutcome) (city unit : PyVal),
        weatherNetBenign net = true →
        ∃ s, get_current_weather key net city unit = .ok (.pstr s))
    ∧ (∀ (key : Option String) (net : HttpOutcome) (cat : PyVal) (ctry : String),
        newsNetBenign net = true →
        ∃ s, get_news_headlines key net cat (.pstr ctry) = .ok (.pstr s))
    ∧ get_news_headlines (some "k")
        (.okResp (.pdict [("articles", .plist [.pdict [("title", .pstr "headline")]])]))
        (.pstr "general") (.pint 5)
        = .error (.typeError "can only concatenate str to str") := by
  refine ⟨?_, fun c => ⟨_, rfl⟩, fun t => ⟨_, rfl⟩, ?_, ?_, rfl⟩
  · intro send d v a
    unfold _control_device
    rcases DEVICE_MAP.lookup d with _ | info
    · exact ⟨_, false, rfl, rfl, fun h => absurd h Bool.false_ne_true, fun _ => ⟨_, rfl⟩⟩
    · dsimp only
      by_cases hs : send (generate_write_command info.slave_id info.register v) = true
      · rw [if_pos hs]
        exact ⟨_, true, rfl, rfl, fun _ => ⟨⟨info.name, rfl⟩, rfl⟩,
          fun h => absurd h.symm Bool.false_ne_true⟩
      · rw [if_neg hs]
        exact ⟨_, false, rfl, rfl, fun h => absurd h Bool.false_ne_true, fun _ => ⟨_, rfl⟩⟩
  · intro key net city unit hben
    unfold get_current_weather
    by_cases hk : apiKeyOk key = true
    · rw [if_neg (not_not_intro hk)]
      rcases net with e | body
      · exact ⟨_, rfl⟩
      · rcases body with _ | b | n | s | xs | kvs
        · simp [weatherNetBenign] at hben
        · simp [weatherNetBenign] at hben
        · simp [weatherNetBenign] at hben
        · simp [weatherNetBenign] at hben
        · simp [weatherNetBenign] at hben
        · dsimp only
          rw [pyDictGet_dict]
          dsimp only
          rw [weatherNetBenign] at hben
          by_cases hcod : codIs200 ((kvs.lookup ("cod")).getD .pnone) = true
          · rw [if_neg (not_not_intro hcod)]
            rw [if_pos hcod] at hben
            rcases hw : weatherFields (.pdict kvs) with e | fields
            · rw [hw] at hben
              rcases e with s2 | k2 | i2 | t2 | a2
              · simp at hben
              · exact ⟨_, rfl⟩
              · simp at hben
              · simp at hben
              · simp at hben
            · obtain ⟨desc, temp, feels, hum, speed⟩ := fields
              exact ⟨_, rfl⟩
          · rw [if_pos hcod]
            rw [pyDictGet_dict]
            exact ⟨_, rfl⟩
    · rw [if_pos hk]
      exact ⟨_, rfl⟩
  · intro key net cat ctry hben
    unfold get_news_headlines
    by_cases hk : apiKeyOk key = true
    · rw [if_neg (not_not_intro hk)]
      rcases net with e | body
      · exact ⟨_, rfl⟩
      · rcases body with _ | b | n | s | xs | kvs
        · simp [newsNetBenign] at hben
        · simp [newsNetBenign] at hben
        · simp [newsNetBenign] at hben
        · simp [newsNetBenign] at hben
        · simp [newsNetBenign] at hben
        · dsimp only
          rw [pyDictGet_dict]
          dsimp only
          rw [newsNetBenign] at hben
          rcases ha : (kvs.lookup ("articles")).getD (.plist []) with _ | b | n | s | axs | akvs
          · rw [if_pos (by decide)]
            exact ⟨_, rfl⟩
          · rw [ha] at hben
            dsimp only at hben
            cases b
            · rw [if_pos (by decide)]
              exact ⟨_, rfl⟩
            · simp [pyTruthy] at hben
          · rw [ha] at hben
            dsimp only at hben
            by_cases hb : pyTruthy (.pint n) = true
            · rw [if_pos hb] at hben
              exact absurd hben Bool.false_ne_true
            · rw [if_pos hb]
              exact ⟨_, rfl⟩
          · rw [ha] at hben
            dsimp only at hben
            by_cases hb : pyTruthy (.pstr s) = true
            · rw [if_pos hb] at hben
              exact absurd hben Bool.false_ne_true
            · rw [if_pos hb]
              exact ⟨_, rfl⟩
          · rw [ha] at hben
            dsimp only at hben
            by_cases hb : pyTruthy (.plist axs) = true
            · rw [if_pos hb] at hben
              rw [if_neg (not_not_intro hb)]
              dsimp only
              rcases ht : newsTitles axs with e | hd
              · rw [ht] at hben
                rcases e with s2 | k2 | i2 | t2 | a2
                · simp at hben
                · exact ⟨_, rfl⟩
                · simp at hben
                · simp at hben
                · simp at hben
              · exact ⟨_, rfl⟩
            · rw [if_pos hb]
              exact ⟨_, rfl⟩
          · rw [ha] at hben
            dsimp only at hben
            by_cases hb : pyTruthy (.pdict akvs) = true
            · rw [if_pos hb] at hben
              exact absurd hben Bool.false_ne_true
            · rw [if_pos hb]
              exact ⟨_, rfl⟩
    · rw [if_pos hk]
      exact ⟨_, rfl⟩

/-- Witness for C5 (amended): the device contract and the string shape
of each data lookup, at concrete inputs. -/
theorem spec_C5_witness :
    (∃ s, get_current_weather none (.requestError "boom") (.pstr "Tehran") (.pstr "metric")
        = .ok (.pstr s))
    ∧ (∃ s, get_news_headlines none (.requestError "boom") (.pstr "general") (.pstr "us")
        = .ok (.pstr s))
    ∧ (∃ s, get_current_time ⟨7, 5, 3⟩ = .pstr s)
    ∧ (∃ kvs b, _control_device (fun _ => true) "kitchen_lamp" 2 "turned on" = .pdict kvs
        ∧ kvs.lookup ("success") = some (.pbool b)) := by
  refine ⟨spec_C5_capability_contract.2.2.2.1 none (.requestError "boom")
      (.pstr "Tehran") (.pstr "metric") (by decide),
    spec_C5_capability_contract.2.2.2.2.1 none (.requestError "boom")
      (.pstr "general") "us" (by decide),
    spec_C5_capability_contract.2.1 ⟨7, 5, 3⟩, ?_⟩
  obtain ⟨kvs, b, h1, h2, -, -⟩ :=
    spec_C5_capability_contract.1 (fun _ => true) "kitchen_lamp" 2 "turned on"
  exact ⟨kvs, b, h1, h2⟩
